import Mathlib

/-!
Shallow embedding of the geoarray repository (gdalfuncs.py, geoarray.py,
geogridbase.py) and verification of the frozen claims about it.

The source is Python 2: `round` rounds half away from zero, `a or b`
returns `a` when `a` is truthy and `b` otherwise, and dict/str handling
follows CPython 2 semantics.  External GDAL/OSR objects are modelled by
the data the source code actually exchanges with them (a stored CRS text,
a point-mapping function, a geotransform tuple); numeric grid data is
modelled as a flat list of cells.
-/

namespace Geoarray

/-- Python 2's builtin `round`: round to the nearest integer, ties away
from zero. -/
noncomputable def pyround (x : ℝ) : ℤ :=
  if x < 0 then -⌊-x + 1 / 2⌋ else ⌊x + 1 / 2⌋

/-- The four corner conventions of a GeoArray origin. -/
inductive Origin
  | ul
  | ur
  | ll
  | lr
deriving DecidableEq, Repr

/-- The attributes of a source GeoArray that `_warp` reads: shape,
bounding box, fill value and dtype.  `xmin/xmax/ymin/ymax` are the
`grid.bbox` entries. -/
structure WarpGrid where
  nbands : ℕ
  nrows : ℕ
  ncols : ℕ
  xmin : ℝ
  xmax : ℝ
  ymin : ℝ
  ymax : ℝ
  fill_value : ℝ
  dtype : String

/-- The output-specification dict returned by `_warp` (keys "shape",
"value", "fill_value", "dtype", "yorigin", "xorigin", "origin",
"cellsize", "proj").  `P` is the type of the opaque target CRS object. -/
structure WarpSpec (P : Type) where
  shape : ℕ × ℕ × ℕ
  value : ℝ
  fill_value : ℝ
  dtype : String
  yorigin : ℝ
  xorigin : ℝ
  origin : Origin
  cellsize : ℝ × ℝ
  proj : P

/-- Embedding of `_warp` (gdalfuncs.py lines 196-225).  `t` is the
coordinate transformer built from `grid.proj` and the target CRS; it
takes `(y, x)` and returns the transformed `(y, x)` pair, exactly as
`_Transformer.__call__` does. -/
noncomputable def warp {P : Type} (g : WarpGrid) (proj : P)
    (t : ℝ → ℝ → ℝ × ℝ) : WarpSpec P :=
  let ul := t g.ymax g.xmin
  let lr := t g.ymin g.xmax
  let ur := t g.ymax g.xmax
  let ll := t g.ymin g.xmin
  let sdiag := Real.sqrt ((g.nrows : ℝ) ^ 2 + (g.ncols : ℝ) ^ 2)
  let tdiag := Real.sqrt ((ll.1 - ur.1) ^ 2 + (ll.2 - ur.2) ^ 2)
  let tcellsize := tdiag / sdiag
  let ncols := (pyround ((max ur.2 lr.2 - min ul.2 ll.2) / tcellsize)).natAbs
  let nrows := (pyround ((max ur.1 lr.1 - min ul.1 ll.1) / tcellsize)).natAbs
  { shape := (g.nbands, nrows, ncols)
    value := g.fill_value
    fill_value := g.fill_value
    dtype := g.dtype
    yorigin := max (max (max ul.1 ur.1) ll.1) lr.1
    xorigin := min (min (min ul.2 ur.2) ll.2) lr.2
    origin := Origin.ul
    cellsize := (-tcellsize, tcellsize)
    proj := proj }

/-- Modelled from the spec's words for claim C1 (not from the source):
the target column count as `round(|max(x_i) - min(x_i)| / cellsize)`
where the maximum and minimum range over the x-coordinates of all four
transformed bbox corners, with the cellsize estimate of `_warp`. -/
noncomputable def specNcols (g : WarpGrid) (t : ℝ → ℝ → ℝ × ℝ) : ℕ :=
  let ul := t g.ymax g.xmin
  let lr := t g.ymin g.xmax
  let ur := t g.ymax g.xmax
  let ll := t g.ymin g.xmin
  let sdiag := Real.sqrt ((g.nrows : ℝ) ^ 2 + (g.ncols : ℝ) ^ 2)
  let tdiag := Real.sqrt ((ll.1 - ur.1) ^ 2 + (ll.2 - ur.2) ^ 2)
  let tcellsize := tdiag / sdiag
  let xs := max (max (max ul.2 ur.2) ll.2) lr.2 - min (min (min ul.2 ur.2) ll.2) lr.2
  (pyround (|xs| / tcellsize)).natAbs

/-- Concrete 1-band 3x4 source grid with bbox `{xmin 0, xmax 4, ymin 0,
ymax 3}`, used to separate `_warp`'s corner choice from the spec's. -/
def cexGrid : WarpGrid :=
  { nbands := 1, nrows := 3, ncols := 4
    xmin := 0, xmax := 4, ymin := 0, ymax := 3
    fill_value := 0, dtype := "float64" }

/-- Concrete coordinate transform for the C1 counterexample: keeps y and
maps x bilinearly so that the upper-left corner lands at x = 10 while
the other three corners keep their x values. -/
noncomputable def cexTrans (y x : ℝ) : ℝ × ℝ :=
  (y, x + 10 / 3 * y - 5 / 6 * x * y)

/-! Legacy reader (geogridbase.py): `_GeoGridBase` data state and the
nodata-value setter.  The numpy array is modelled as a flat list of
cells; `dtype` is the grid's numeric-kind conversion applied by
`self.dtype(...)`; `readData` is the backend's `_readData`. -/

/-- Data state of `_GeoGridBase`: `data` is `self._data` (`none` models
the unloaded `None` sentinel), `nodata` is `self._nodata_value`. -/
structure GeoGrid (V : Type) where
  data : Option (List V)
  nodata : V
  dtype : V → V
  readData : List V

/-- Loading step of `_GeoGridBase.__getitem__`: if `self._data` is
`None`, it becomes `self.dtype(self._readData())` (an elementwise
conversion); otherwise the cached data is used. -/
def GeoGrid.load {V : Type} (g : GeoGrid V) : List V :=
  match g.data with
  | some d => d
  | none => g.readData.map g.dtype

/-- Embedding of `_GeoGridBase._setNodataValue` (geogridbase.py lines
76-84): `self[self[:] == self._nodata_value] = self.dtype(value)` then
`self._nodata_value = self.dtype(value)`.  The masked assignment forces
a load and rewrites exactly the cells equal to the old nodata value. -/
def GeoGrid.setNodataValue {V : Type} [DecidableEq V]
    (g : GeoGrid V) (value : V) : GeoGrid V :=
  let d := g.load
  { g with
    data := some (d.map fun c => if c = g.nodata then g.dtype value else c)
    nodata := g.dtype value }

/-! Projection handling (gdalfuncs.py `_Projection`, `_Transformer`).
An `osr.SpatialReference` is modelled by the CRS text it stores:
`ImportFromProj4` stores the text, `ExportToProj4` returns it, and
`str(srs)` is empty exactly when nothing (valid) was imported.  Strings
are modelled as `List Char` so that the source's `re.split` tokenizer
can be reasoned about. -/

/-- Tells whether a character is one of the separators of
`re.split("[+= ]", ...)`. -/
def isSep (c : Char) : Bool :=
  c = '+' || c = '=' || c = ' '

/-- Embedding of `re.split("[+= ]", s)`: split `s` at every separator
character, keeping empty fields. -/
def splitSep : List Char → List (List Char)
  | [] => [[]]
  | c :: cs =>
    if isSep c then [] :: splitSep cs
    else
      match splitSep cs with
      | [] => [[c]]
      | f :: r => (c :: f) :: r

/-- The comprehension `[x for x in re.split("[+= ]", s) if x]`: the
split fields with the empty ones dropped. -/
def tokens (s : List Char) : List (List Char) :=
  (splitSep s).filter fun t => !t.isEmpty

/-- Embedding of `dict(zip(l[0::2], l[1::2]))`: pair up alternating
elements, dropping a trailing unpaired element. -/
def pairUp {α : Type} : List α → List (α × α)
  | a :: b :: r => (a, b) :: pairUp r
  | _ => []

/-- Embedding of `" +".join("=".join(k, v) for (k, v) in ps)`, the body
of the parameter string built by `_Projection.__init__` for a dict
argument. -/
def joinBody : List (List Char × List Char) → List Char
  | [] => []
  | [(k, v)] => k ++ '=' :: v
  | (k, v) :: r => k ++ '=' :: v ++ ' ' :: '+' :: joinBody r

/-- A `_Projection`, modelled by the CRS text held by its
`osr.SpatialReference` (empty when unset/invalid). -/
structure Projection where
  proj4 : List Char
deriving DecidableEq, Repr

/-- The dict branch of `_Projection.__init__` (gdalfuncs.py lines
76-80): builds `"+" + " +".join(...)` and imports it into the spatial
reference, which stores it. -/
def Projection.fromParams (ps : List (List Char × List Char)) : Projection :=
  ⟨'+' :: joinBody ps⟩

/-- Embedding of `_Projection.getProj4` (gdalfuncs.py lines 86-89):
export the stored text, split it on `[+= ]`, drop empty tokens and pair
alternating tokens as key/value. -/
def Projection.getProj4 (p : Projection) : List (List Char × List Char) :=
  pairUp (tokens p.proj4)

/-- Embedding of `_Projection.getReference` (gdalfuncs.py lines 94-96):
return the spatial reference when `str(self._srs)` is truthy, `None`
otherwise. -/
def Projection.getReference (p : Projection) : Option Projection :=
  if p.proj4 = [] then none else some p

/-- Python exception values raised (or, for the last two, merely named
by the spec's error taxonomy and never constructed by the code). -/
inductive PyError
  | attributeError (msg : String)
  | notImplementedError (msg : String)
  | ioError (msg : String)
  | projectionError (msg : String)
  | cellsizeMismatchError (msg : String)
deriving DecidableEq, Repr

/-- Tells whether an error is the spec taxonomy's `ProjectionError`. -/
def PyError.isProjectionError : PyError → Bool
  | .projectionError _ => true
  | _ => false

/-- Tells whether an error is the spec taxonomy's
`CellsizeMismatchError`. -/
def PyError.isCellsizeMismatchError : PyError → Bool
  | .cellsizeMismatchError _ => true
  | _ => false

/-- A `_Transformer`: `tx` models the `osr.CoordinateTransformation`
object, whose `TransformPoint` raises `NotImplementedError` when the
transformation could not be set up (modelled as `none`). -/
structure Transformer where
  tx : Option (ℝ → ℝ → ℝ × ℝ × ℝ)

/-- Embedding of `_Transformer.__init__`: builds the coordinate
transformation from the two references.  `f` is the actual point
mapping of the external library for the valid case; when either
`getReference` result is `None` the resulting object is unusable. -/
def mkTransformer (f : ℝ → ℝ → ℝ × ℝ × ℝ) (sproj tproj : Projection) :
    Transformer :=
  match sproj.getReference, tproj.getReference with
  | some _, some _ => ⟨some f⟩
  | _, _ => ⟨none⟩

/-- The external `TransformPoint(x, y)` call: raises
`NotImplementedError` on an unusable transformation, otherwise returns
the transformed `(x, y, z)` triple. -/
def Transformer.transformPoint (tr : Transformer) (x y : ℝ) :
    Except PyError (ℝ × ℝ × ℝ) :=
  match tr.tx with
  | none => .error (.notImplementedError "")
  | some f => .ok (f x y)

/-- Embedding of `_Transformer.__call__` (gdalfuncs.py lines 119-124):
`xt, yt, _ = self._tx.TransformPoint(x, y)` with `NotImplementedError`
turned into `AttributeError("Projections not correct or given!")`,
returning `(yt, xt)`. -/
def Transformer.call (tr : Transformer) (y x : ℝ) : Except PyError (ℝ × ℝ) :=
  match tr.transformPoint x y with
  | .error (.notImplementedError _) =>
      .error (.attributeError "Projections not correct or given!")
  | .error e => .error e
  | .ok (xt, yt, _) => .ok (yt, xt)

/-! Legacy reader construction (geogridbase.py `_GdalGrid`). -/

/-- Embedding of `_GdalGrid._cellsize` (geogridbase.py lines 184-188):
accept the cellsize pair only when the absolute x- and y-direction
cellsizes agree, otherwise raise `NotImplementedError`. -/
def gdalCellsize (x_cellsize y_cellsize : ℚ) : Except PyError ℚ :=
  if |x_cellsize| = |y_cellsize| then .ok |x_cellsize|
  else .error (.notImplementedError
    "Diverging cellsizes in x and y direction are not allowed yet!")

/-- Embedding of `_GdalGrid._yllcorner`. -/
def gdalYllcorner (yulcorner cellsize : ℚ) (nrows : ℕ) : ℚ :=
  if cellsize < 0 then yulcorner + cellsize * nrows else yulcorner

/-- The georeferencing attributes a `_GdalGrid` holds after a
successful `__init__`. -/
structure GdalGridInfo where
  nbands : ℕ
  nrows : ℕ
  ncols : ℕ
  xllcorner : ℚ
  yllcorner : ℚ
  cellsize : ℚ
deriving DecidableEq, Repr

/-- Embedding of `_GdalGrid.__init__` (geogridbase.py lines 152-168) on
the data read from the dataset: `rasterCount/rasterY/rasterX` are the
band count and raster sizes, `t0/t1/t3/t5` the geotransform entries.
The cellsize check raises before any grid object is produced. -/
def mkGdalGrid (rasterCount rasterY rasterX : ℕ) (t0 t1 t3 t5 : ℚ) :
    Except PyError GdalGridInfo :=
  match gdalCellsize t1 t5 with
  | .error e => .error e
  | .ok cs =>
    .ok
      { nbands := rasterCount
        nrows := rasterY
        ncols := rasterX
        xllcorner := t0
        yllcorner := gdalYllcorner t3 t5 rasterY
        cellsize := cs }

/-! The `array` initializer (geoarray.py lines 18-69).  Python
truthiness decides each `a or b`; coordinates are modelled over `ℚ` so
truthiness stays decidable. -/

/-- A cellsize argument: Python allows a scalar or a 2-tuple; a scalar
is falsy exactly when it is zero, a (nonempty) tuple is always truthy. -/
inductive CellArg
  | scalar (v : ℚ)
  | pair (p : ℚ × ℚ)
deriving DecidableEq, Repr

/-- Truthiness of a `CellArg`. -/
def CellArg.truthy : CellArg → Bool
  | .scalar v => v ≠ 0
  | .pair _ => true

/-- Normalization of a cellsize to the signed `(dy, dx)` pair stored by
the GeoArray data model (a scalar is used for both directions). -/
def CellArg.toPair : CellArg → ℚ × ℚ
  | .scalar v => (v, v)
  | .pair p => p

/-- Python's `a or b` where `a` is an optional argument (`none` models
`None`) judged by the truthiness predicate `t`, and `b` is itself
possibly `None`. -/
def pyOr {α : Type} (t : α → Bool) (a b : Option α) : Option α :=
  match a with
  | some x => if t x then some x else b
  | none => b

/-- The attributes of a `GeoArray` that the `array` initializer reads
and produces.  `origin` is one of the four corner conventions, hence
always truthy; `fill_value`, `proj` and `mode` may be `None`. -/
structure PyGeoArray where
  dtype : String
  yorigin : ℚ
  xorigin : ℚ
  origin : Origin
  fill_value : Option ℚ
  cellsize : ℚ × ℚ
  proj : Option (List (String × String))
  mode : Option String
deriving DecidableEq, Repr

/-- Embedding of `array` (geoarray.py lines 49-69) for a `GeoArray`
input `g`: every keyword argument is `or`-ed with the corresponding
attribute of `g`, then the `GeoArray` constructor call applies the
final fallback defaults (`0`, `"ul"`, `(1, 1)`). -/
def array (g : PyGeoArray) (dtype : Option String) (yorigin xorigin : Option ℚ)
    (origin : Option Origin) (fill_value : Option ℚ) (cellsize : Option CellArg)
    (proj : Option (List (String × String))) (mode : Option String) :
    PyGeoArray :=
  let dtype1 := pyOr (fun s => s ≠ "") dtype (some g.dtype)
  let yorigin1 := pyOr (fun v => v ≠ 0) yorigin (some g.yorigin)
  let xorigin1 := pyOr (fun v => v ≠ 0) xorigin (some g.xorigin)
  let origin1 := pyOr (fun _ => true) origin (some g.origin)
  let fill1 := pyOr (fun v => v ≠ 0) fill_value g.fill_value
  let cell1 := pyOr CellArg.truthy cellsize (some (.pair g.cellsize))
  let proj1 := pyOr (fun l => !l.isEmpty) proj g.proj
  let mode1 := pyOr (fun s => s ≠ "") mode g.mode
  { dtype := (pyOr (fun s => s ≠ "") dtype1 none).getD g.dtype
    yorigin := (pyOr (fun v => v ≠ 0) yorigin1 (some 0)).getD 0
    xorigin := (pyOr (fun v => v ≠ 0) xorigin1 (some 0)).getD 0
    origin := (pyOr (fun _ => true) origin1 (some .ul)).getD .ul
    fill_value := fill1
    cellsize := ((pyOr CellArg.truthy cell1 (some (.pair (1, 1)))).getD
      (.pair (1, 1))).toPair
    proj := proj1
    mode := mode1 }

/-- Truthiness of an optional argument: `None` is falsy, a value is
judged by its own truthiness. -/
def falsyArg {α : Type} (t : α → Bool) : Option α → Prop
  | none => True
  | some x => t x = false

/-! The GDAL type and color tables (gdalfuncs.py lines 20-60). -/

/-- The string-keyed entries of `TYPEMAP` (gdalfuncs.py lines 20-30):
numeric-kind name to GDAL type code. -/
def TYPEMAP_CODE : List (String × ℕ) :=
  [("uint8", 1), ("int8", 1), ("uint16", 2), ("int16", 3), ("uint32", 4),
   ("int32", 5), ("float32", 6), ("float64", 7), ("complex64", 10),
   ("complex128", 11)]

/-- The integer-keyed entries of `TYPEMAP` (gdalfuncs.py lines 31-39):
GDAL type code back to numeric-kind name. -/
def TYPEMAP_KIND : List (ℕ × String) :=
  [(1, "int8"), (2, "uint16"), (3, "int16"), (4, "uint32"), (5, "int32"),
   (6, "float32"), (7, "float64"), (10, "complex64"), (11, "complex128")]

/-- Lookup `TYPEMAP[kind]` for a numeric-kind name. -/
def typemapCode (kind : String) : Option ℕ :=
  TYPEMAP_CODE.lookup kind

/-- Lookup `TYPEMAP[code]` for a GDAL type code. -/
def typemapKind (code : ℕ) : Option String :=
  TYPEMAP_KIND.lookup code

/-- The ten numeric kinds in the domain of the code table. -/
def KINDS : List String :=
  ["uint8", "int8", "uint16", "int16", "uint32", "int32", "float32",
   "float64", "complex64", "complex128"]

/-- Embedding of `COLOR_DICT` (gdalfuncs.py lines 43-60): GDAL color
interpretation code to band role tag. -/
def COLOR_DICT : List (ℕ × String) :=
  [(1, "L"), (2, "P"), (3, "R"), (4, "G"), (5, "B"), (6, "A"), (7, "H"),
   (8, "S"), (9, "V"), (10, "C"), (11, "M"), (12, "Y"), (13, "K"),
   (14, "Y"), (15, "Cb"), (16, "Cr")]

/-- The per-band role assignment inside `_getColorMode` (gdalfuncs.py
line 152): `COLOR_DICT.get(color, "L")`. -/
def colorRole (color : ℕ) : String :=
  (COLOR_DICT.lookup color).getD "L"

/-- First-seen-order deduplication, the effect of
`sorted(set(tmp), key=tmp.index)` on the band tag list. -/
def dedupFirstSeen (seen : List String) : List String → List String
  | [] => []
  | a :: r =>
    if a ∈ seen then dedupFirstSeen seen r
    else a :: dedupFirstSeen (a :: seen) r

/-- Embedding of `_getColorMode` (gdalfuncs.py lines 147-153) on the
list of the bands' color interpretation codes. -/
def getColorMode (colors : List ℕ) : String :=
  String.join (dedupFirstSeen [] (colors.map colorRole))

/-- Membership of `g.data` cells, with the unloaded case empty. -/
def GeoGrid.cells {V : Type} (g : GeoGrid V) : List V :=
  g.data.getD []

/-- Interleaving of a pair list, the inverse image of `pairUp`. -/
def flatPairs {α : Type} : List (α × α) → List α
  | [] => []
  | p :: r => p.1 :: p.2 :: flatPairs r

/-- A well-formed proj4 token: nonempty and free of the separator
characters `+`, `=` and space. -/
def goodTok (t : List Char) : Prop :=
  t ≠ [] ∧ ∀ c ∈ t, isSep c = false

/-- Decidability of token well-formedness. -/
instance : DecidablePred goodTok := fun t =>
  decidable_of_iff (t ≠ [] ∧ ∀ c ∈ t, isSep c = false) Iff.rfl

/-! ### Theorems -/

theorem splitSep_ne_nil (s : List Char) : splitSep s ≠ [] := by
  cases s with
  | nil => simp [splitSep]
  | cons c cs =>
    simp only [splitSep]
    split
    · simp
    · cases h : splitSep cs <;> simp

theorem splitSep_sep_cons (c : Char) (hc : isSep c = true) (s : List Char) :
    splitSep (c :: s) = [] :: splitSep s := by
  simp [splitSep, hc]

theorem splitSep_nonsep_cons (c : Char) (hc : isSep c = false) (s : List Char) :
    splitSep (c :: s) = (c :: (splitSep s).headI) :: (splitSep s).tail := by
  cases h : splitSep s with
  | nil => exact absurd h (splitSep_ne_nil s)
  | cons f r => simp [splitSep, hc, h]

theorem splitSep_append (a : List Char) (ha : ∀ c ∈ a, isSep c = false)
    (s : List Char) :
    splitSep (a ++ s) = (a ++ (splitSep s).headI) :: (splitSep s).tail := by
  induction a with
  | nil =>
    cases h : splitSep s with
    | nil => exact absurd h (splitSep_ne_nil s)
    | cons f r => simp [h]
  | cons c a ih =>
    have hc : isSep c = false := ha c (by simp)
    have ha' : ∀ x ∈ a, isSep x = false := fun x hx => ha x (by simp [hx])
    rw [List.cons_append, splitSep_nonsep_cons c hc, ih ha']
    simp

theorem splitSep_sepfree (a : List Char) (ha : ∀ c ∈ a, isSep c = false) :
    splitSep a = [a] := by
  have h := splitSep_append a ha []
  simpa [splitSep] using h

theorem tokens_joinBody (ps : List (List Char × List Char))
    (h : ∀ p ∈ ps, goodTok p.1 ∧ goodTok p.2) :
    (splitSep (joinBody ps)).filter (fun t => !t.isEmpty) = flatPairs ps := by
  induction ps with
  | nil => simp [joinBody, splitSep, flatPairs]
  | cons p r ih =>
    obtain ⟨⟨hk1, hk2⟩, hv1, hv2⟩ := h p (by simp)
    have hr : ∀ q ∈ r, goodTok q.1 ∧ goodTok q.2 := fun q hq => h q (by simp [hq])
    have hke : p.1.isEmpty = false := by simp [List.isEmpty_iff, hk1]
    have hve : p.2.isEmpty = false := by simp [List.isEmpty_iff, hv1]
    cases r with
    | nil =>
      obtain ⟨k, v⟩ := p
      rw [show joinBody [(k, v)] = k ++ '=' :: v from rfl]
      rw [splitSep_append k hk2, splitSep_sep_cons '=' (by decide)]
      rw [splitSep_sepfree v hv2]
      simp only [List.headI, List.tail, List.append_nil]
      simp [List.filter_cons, hke, hve, flatPairs]
    | cons q r' =>
      obtain ⟨k, v⟩ := p
      rw [show joinBody ((k, v) :: q :: r') =
        k ++ '=' :: (v ++ ' ' :: '+' :: joinBody (q :: r')) from by simp [joinBody]]
      rw [splitSep_append k hk2, splitSep_sep_cons '=' (by decide)]
      rw [splitSep_append v hv2, splitSep_sep_cons ' ' (by decide),
        splitSep_sep_cons '+' (by decide)]
      simp only [List.headI, List.tail, List.append_nil]
      rw [show flatPairs ((k, v) :: q :: r') = k :: v :: flatPairs (q :: r') from rfl]
      rw [← ih hr]
      simp [List.filter_cons, hke, hve]

theorem pairUp_flatPairs {α : Type} (ps : List (α × α)) :
    pairUp (flatPairs ps) = ps := by
  induction ps with
  | nil => rfl
  | cons p r ih => simp [flatPairs, pairUp, ih]

/-- Claim C5 (amended): for every parameter mapping whose keys and
values are nonempty and contain none of the separator characters `+`,
`=`, space, `fromParams(m).getParams()` recovers exactly the key/value
pairs of `m` (in particular independent of their order). -/
theorem fromParams_getProj4_roundtrip (ps : List (List Char × List Char))
    (h : ∀ p ∈ ps, goodTok p.1 ∧ goodTok p.2) :
    (Projection.fromParams ps).getProj4 = ps := by
  show pairUp ((splitSep ('+' :: joinBody ps)).filter (fun t => !t.isEmpty)) = ps
  rw [splitSep_sep_cons '+' (by decide), List.filter_cons]
  simp only [List.isEmpty_nil, Bool.not_true, Bool.false_eq_true, if_false]
  rw [tokens_joinBody ps h, pairUp_flatPairs]

/-- Witness for claim C5's amended round-trip theorem at the mapping
`{"proj": "utm", "zone": "32"}`. -/
theorem fromParams_getProj4_roundtrip_witness :
    (Projection.fromParams
        [(['p', 'r', 'o', 'j'], ['u', 't', 'm']), (['z', 'o', 'n', 'e'], ['3', '2'])]).getProj4 =
      [(['p', 'r', 'o', 'j'], ['u', 't', 'm']), (['z', 'o', 'n', 'e'], ['3', '2'])] :=
  fromParams_getProj4_roundtrip _ (by decide)

/-- Counterexample for claim C5 as stated: the mapping `{"a": "x y"}`
(a value containing a space) is not recovered by
`fromParams(m).getParams()`. -/
theorem fromParams_getProj4_counterexample :
    (Projection.fromParams [(['a'], ['x', ' ', 'y'])]).getProj4 ≠
      [(['a'], ['x', ' ', 'y'])] := by
  decide

/-- Claim C1 (counterexample): at the concrete grid `cexGrid` and
transform `cexTrans`, `_warp` plans 4 output columns while the claimed
all-four-corner formula gives 10, so the planner's column count is not
the rounded spread of all four transformed corner x-coordinates. -/
theorem warp_ncols_all_corners_counterexample :
    (warp cexGrid () cexTrans).shape.2.2 = 4 ∧
      specNcols cexGrid cexTrans = 10 ∧
      (warp cexGrid () cexTrans).shape.2.2 ≠ specNcols cexGrid cexTrans := by
  have h1 : (warp cexGrid () cexTrans).shape.2.2 = 4 := by
    simp only [warp, cexGrid, cexTrans]
    norm_num
    norm_num [pyround]
  have h2 : specNcols cexGrid cexTrans = 10 := by
    simp only [specNcols, cexGrid, cexTrans]
    norm_num
    norm_num [pyround]
  exact ⟨h1, h2, by rw [h1, h2]; decide⟩

/-- Claim C1 (amended): `_warp` plans
`ncols = |round((max(urx, lrx) − min(ulx, llx)) / cellsize)|` using only
the x-coordinates of the transformed right-edge corners for the maximum
and of the transformed left-edge corners for the minimum, and
`nrows = |round((max(ury, lry) − min(uly, lly)) / cellsize)|` using the
y-coordinates of those same corner pairs — not the extrema over all
four corners. -/
theorem warp_ncols_nrows_side_corners {P : Type} (g : WarpGrid) (p : P)
    (t : ℝ → ℝ → ℝ × ℝ) :
    (warp g p t).shape.2.2 =
      (pyround ((max (t g.ymax g.xmax).2 (t g.ymin g.xmax).2 -
          min (t g.ymax g.xmin).2 (t g.ymin g.xmin).2) /
        (Real.sqrt (((t g.ymin g.xmin).1 - (t g.ymax g.xmax).1) ^ 2 +
            ((t g.ymin g.xmin).2 - (t g.ymax g.xmax).2) ^ 2) /
          Real.sqrt ((g.nrows : ℝ) ^ 2 + (g.ncols : ℝ) ^ 2)))).natAbs ∧
    (warp g p t).shape.2.1 =
      (pyround ((max (t g.ymax g.xmax).1 (t g.ymin g.xmax).1 -
          min (t g.ymax g.xmin).1 (t g.ymin g.xmin).1) /
        (Real.sqrt (((t g.ymin g.xmin).1 - (t g.ymax g.xmax).1) ^ 2 +
            ((t g.ymin g.xmin).2 - (t g.ymax g.xmax).2) ^ 2) /
          Real.sqrt ((g.nrows : ℝ) ^ 2 + (g.ncols : ℝ) ^ 2)))).natAbs :=
  ⟨rfl, rfl⟩

/-- Claim C2: the isotropic target cellsize estimated by `_warp` is the
Euclidean distance between the transformed lower-left corner
`t(ymin, xmin)` and the transformed upper-right corner `t(ymax, xmax)`,
divided by the source diagonal in pixels `sqrt(nrows^2 + ncols^2)`. -/
theorem warp_cellsize_diagonal_ratio {P : Type} (g : WarpGrid) (p : P)
    (t : ℝ → ℝ → ℝ × ℝ) :
    (warp g p t).cellsize.2 =
      Real.sqrt (((t g.ymin g.xmin).1 - (t g.ymax g.xmax).1) ^ 2 +
          ((t g.ymin g.xmin).2 - (t g.ymax g.xmax).2) ^ 2) /
        Real.sqrt ((g.nrows : ℝ) ^ 2 + (g.ncols : ℝ) ^ 2) :=
  rfl

/-- Claim C3: the output specification of `_warp` has origin corner
"ul", yorigin the maximum of the four transformed corner y-coordinates,
xorigin the minimum of the four transformed corner x-coordinates,
cellsize `(−c, c)` for the estimated isotropic cellsize `c`, band count
copied into the leading shape entry, and dtype and fill_value copied
unchanged from the source grid. -/
theorem warp_output_specification {P : Type} (g : WarpGrid) (p : P)
    (t : ℝ → ℝ → ℝ × ℝ) :
    (warp g p t).origin = Origin.ul ∧
    (warp g p t).yorigin =
      max (max (max (t g.ymax g.xmin).1 (t g.ymax g.xmax).1)
        (t g.ymin g.xmin).1) (t g.ymin g.xmax).1 ∧
    (warp g p t).xorigin =
      min (min (min (t g.ymax g.xmin).2 (t g.ymax g.xmax).2)
        (t g.ymin g.xmin).2) (t g.ymin g.xmax).2 ∧
    (warp g p t).cellsize =
      (-(warp g p t).cellsize.2, (warp g p t).cellsize.2) ∧
    (warp g p t).shape.1 = g.nbands ∧
    (warp g p t).dtype = g.dtype ∧
    (warp g p t).fill_value = g.fill_value ∧
    (warp g p t).proj = p :=
  ⟨rfl, rfl, rfl, rfl, rfl, rfl, rfl, rfl⟩

/-- Claim C4: once loaded, setting the nodata value to `v2` rewrites
every cell equal to the old nodata value to `dtype(v2)`, leaves every
other cell unchanged, and stores `dtype(v2)` as the new nodata value. -/
theorem setNodataValue_rewrites_nodata_cells {V : Type} [DecidableEq V]
    (g : GeoGrid V) (d : List V) (v2 : V) (h : g.data = some d) :
    (g.setNodataValue v2).nodata = g.dtype v2 ∧
    (g.setNodataValue v2).cells.length = d.length ∧
    ∀ (i : ℕ) (hi : i < d.length) (hi' : i < (g.setNodataValue v2).cells.length),
      (d[i] = g.nodata → (g.setNodataValue v2).cells[i] = g.dtype v2) ∧
      (d[i] ≠ g.nodata → (g.setNodataValue v2).cells[i] = d[i]) := by
  have hload : g.load = d := by simp [GeoGrid.load, h]
  have hcells : (g.setNodataValue v2).cells =
      d.map fun c => if c = g.nodata then g.dtype v2 else c := by
    simp [GeoGrid.setNodataValue, GeoGrid.cells, hload]
  refine ⟨rfl, by simp [hcells], ?_⟩
  intro i hi hi'
  constructor
  · intro hc
    simp only [hcells, List.getElem_map]
    simp [hc]
  · intro hc
    simp only [hcells, List.getElem_map]
    simp [hc]

/-- Witness for claim C4 at the loaded integer grid `[1, 2, 1]` with
nodata value 1, identity dtype, and new nodata value 9. -/
theorem setNodataValue_rewrites_nodata_cells_witness :
    ((GeoGrid.mk (some [1, 2, 1]) 1 id ([] : List ℤ)).setNodataValue 9).nodata =
      id 9 ∧
    ((GeoGrid.mk (some [1, 2, 1]) 1 id ([] : List ℤ)).setNodataValue 9).cells.length =
      [(1 : ℤ), 2, 1].length ∧
    ∀ (i : ℕ) (hi : i < [(1 : ℤ), 2, 1].length)
      (hi' : i < ((GeoGrid.mk (some [1, 2, 1]) 1 id ([] : List ℤ)).setNodataValue
        9).cells.length),
      ([(1 : ℤ), 2, 1][i] = (GeoGrid.mk (some [1, 2, 1]) 1 id ([] : List ℤ)).nodata →
        ((GeoGrid.mk (some [1, 2, 1]) 1 id ([] : List ℤ)).setNodataValue 9).cells[i] =
          id 9) ∧
      ([(1 : ℤ), 2, 1][i] ≠ (GeoGrid.mk (some [1, 2, 1]) 1 id ([] : List ℤ)).nodata →
        ((GeoGrid.mk (some [1, 2, 1]) 1 id ([] : List ℤ)).setNodataValue 9).cells[i] =
          [(1 : ℤ), 2, 1][i]) :=
  setNodataValue_rewrites_nodata_cells
    (GeoGrid.mk (some [1, 2, 1]) 1 id ([] : List ℤ)) [1, 2, 1] 9 rfl

/-- Claim C6: every numeric kind is mapped to a code in 1..11, the
mapping is injective except that uint8 and int8 share code 1, and for
every kind other than uint8 the code maps back to the same kind. -/
theorem typemap_bijection_except_int8 :
    (∀ k ∈ KINDS, ∃ c, typemapCode k = some c ∧ 1 ≤ c ∧ c ≤ 11) ∧
    (∀ k ∈ KINDS, ∀ k' ∈ KINDS, typemapCode k = typemapCode k' →
      k = k' ∨ (k = "uint8" ∧ k' = "int8") ∨ (k = "int8" ∧ k' = "uint8")) ∧
    (∀ k ∈ KINDS, k ≠ "uint8" → (typemapCode k).bind typemapKind = some k) := by
  refine ⟨by decide, by decide, by decide⟩

/-- Witness for claim C6's round trip at the kind "int16". -/
theorem typemap_bijection_except_int8_witness :
    (typemapCode "int16").bind typemapKind = some "int16" :=
  typemap_bijection_except_int8.2.2 "int16" (by decide) (by decide)

/-- Claim C7 (counterexample): a transformer built from two unset
projections fails with `AttributeError("Projections not correct or
given!")`, which is not the spec taxonomy's `ProjectionError`. -/
theorem transformer_projectionError_counterexample :
    (mkTransformer (fun x y => (x, y, 0)) ⟨[]⟩ ⟨[]⟩).call 0 0 =
      .error (.attributeError "Projections not correct or given!") ∧
    (PyError.attributeError
      "Projections not correct or given!").isProjectionError = false :=
  ⟨rfl, rfl⟩

/-- Claim C7 (amended): whenever either side's underlying reference is
unset, transforming any point fails with the wrapper's
`AttributeError("Projections not correct or given!")` — a dedicated
error distinct from the external library's `NotImplementedError`, but
not a `ProjectionError`, which the code never defines. -/
theorem transformer_unset_reference_attributeError
    (f : ℝ → ℝ → ℝ × ℝ × ℝ) (s t : Projection) (y x : ℝ)
    (h : s.getReference = none ∨ t.getReference = none) :
    (mkTransformer f s t).call y x =
      .error (.attributeError "Projections not correct or given!") := by
  have htx : (mkTransformer f s t).tx = none := by
    unfold mkTransformer
    rcases h with h | h
    · rw [h]
    · rw [h]
      cases s.getReference <;> rfl
  simp [Transformer.call, Transformer.transformPoint, htx]

/-- Witness for claim C7's amended theorem: an unset source projection
against a parameter-built target projection at the point (0, 0). -/
theorem transformer_unset_reference_attributeError_witness :
    (mkTransformer (fun x y => (x, y, 0)) ⟨[]⟩
        (Projection.fromParams [(['a'], ['b'])])).call 0 0 =
      .error (.attributeError "Projections not correct or given!") :=
  transformer_unset_reference_attributeError _ _ _ 0 0 (Or.inl rfl)

/-- Claim C8 (counterexample): a source whose geotransform has
x-cellsize 1 and y-cellsize 2 is rejected with
`NotImplementedError("Diverging cellsizes in x and y direction are not
allowed yet!")`, which is not the spec taxonomy's
`CellsizeMismatchError`. -/
theorem gdalGrid_cellsize_error_kind_counterexample :
    mkGdalGrid 1 2 2 0 1 0 2 =
      .error (.notImplementedError
        "Diverging cellsizes in x and y direction are not allowed yet!") ∧
    (PyError.notImplementedError
      "Diverging cellsizes in x and y direction are not allowed yet!"
      ).isCellsizeMismatchError = false := by
  refine ⟨?_, rfl⟩
  have h : |(1 : ℚ)| ≠ |(2 : ℚ)| := by norm_num
  simp [mkGdalGrid, gdalCellsize, h]

/-- Claim C8 (amended): reading a source whose x- and y-direction
cellsizes diverge in absolute value fails with the legacy reader's
`NotImplementedError` (not a dedicated `CellsizeMismatchError`, which
the code never defines), and no grid object is produced. -/
theorem gdalGrid_diverging_cellsize_rejected
    (rasterCount rasterY rasterX : ℕ) (t0 t1 t3 t5 : ℚ) (h : |t1| ≠ |t5|) :
    mkGdalGrid rasterCount rasterY rasterX t0 t1 t3 t5 =
      .error (.notImplementedError
        "Diverging cellsizes in x and y direction are not allowed yet!") := by
  simp [mkGdalGrid, gdalCellsize, h]

/-- Witness for claim C8's amended theorem at cellsizes 1 and 2. -/
theorem gdalGrid_diverging_cellsize_rejected_witness :
    mkGdalGrid 1 2 2 0 1 0 2 =
      .error (.notImplementedError
        "Diverging cellsizes in x and y direction are not allowed yet!") :=
  gdalGrid_diverging_cellsize_rejected 1 2 2 0 1 0 2 (by norm_num)

/-- Claim C10: a band color-interpretation code outside the table's
domain 1..16 is assigned the role tag "L" (grayscale default, never a
failure), and codes 12 and 14 both map to "Y", so the code-to-tag
mapping is not injective. -/
theorem lookup_eq_none_of_ne {c : ℕ} (l : List (ℕ × String))
    (hk : ∀ p ∈ l, c ≠ p.1) : l.lookup c = none := by
  induction l with
  | nil => rfl
  | cons a r ih =>
    obtain ⟨k, v⟩ := a
    have h1 : c ≠ k := hk (k, v) (by simp)
    rw [List.lookup_cons]
    rw [show (c == k) = false from by simpa using h1]
    exact ih fun p hp => hk p (by simp [hp])

/-- Claim C10: a band color-interpretation code outside the table's
domain 1..16 is assigned the role tag "L" (grayscale default, never a
failure), and codes 12 and 14 both map to "Y", so the code-to-tag
mapping is not injective. -/
theorem colorRole_default_and_Y_collision :
    (∀ c : ℕ, ¬(1 ≤ c ∧ c ≤ 16) → colorRole c = "L") ∧
    colorRole 12 = "Y" ∧ colorRole 14 = "Y" ∧ (12 : ℕ) ≠ 14 := by
  refine ⟨?_, by decide, by decide, by decide⟩
  intro c hc
  have hnone : COLOR_DICT.lookup c = none := by
    apply lookup_eq_none_of_ne
    intro p hp
    fin_cases hp <;> omega
  simp [colorRole, hnone]

/-- Witness for claim C10's default at the unrecognized code 99. -/
theorem colorRole_default_witness : colorRole 99 = "L" :=
  colorRole_default_and_Y_collision.1 99 (by decide)

/-- Claim C9: when the input of `array` is already a GeoArray, every
keyword argument passed with a falsy value (None, a zero number, an
empty string, a zero scalar cellsize, an empty mapping) is ignored and
replaced by the corresponding attribute of the input grid. -/
theorem array_falsy_kwargs_replaced (g : PyGeoArray) (dtype : Option String)
    (yorigin xorigin : Option ℚ) (origin : Option Origin) (fill_value : Option ℚ)
    (cellsize : Option CellArg) (proj : Option (List (String × String)))
    (mode : Option String) :
    (falsyArg (fun s => s ≠ "") dtype →
      (array g dtype yorigin xorigin origin fill_value cellsize proj mode).dtype =
        g.dtype) ∧
    (falsyArg (fun v => v ≠ 0) yorigin →
      (array g dtype yorigin xorigin origin fill_value cellsize proj mode).yorigin =
        g.yorigin) ∧
    (falsyArg (fun v => v ≠ 0) xorigin →
      (array g dtype yorigin xorigin origin fill_value cellsize proj mode).xorigin =
        g.xorigin) ∧
    (falsyArg (fun _ => true) origin →
      (array g dtype yorigin xorigin origin fill_value cellsize proj mode).origin =
        g.origin) ∧
    (falsyArg (fun v => v ≠ 0) fill_value →
      (array g dtype yorigin xorigin origin fill_value cellsize proj mode).fill_value =
        g.fill_value) ∧
    (falsyArg CellArg.truthy cellsize →
      (array g dtype yorigin xorigin origin fill_value cellsize proj mode).cellsize =
        g.cellsize) ∧
    (falsyArg (fun l => !l.isEmpty) proj →
      (array g dtype yorigin xorigin origin fill_value cellsize proj mode).proj =
        g.proj) ∧
    (falsyArg (fun s => s ≠ "") mode →
      (array g dtype yorigin xorigin origin fill_value cellsize proj mode).mode =
        g.mode) := by
  refine ⟨?_, ?_, ?_, ?_, ?_, ?_, ?_, ?_⟩
  · intro h
    have h1 : pyOr (fun s => s ≠ "") dtype (some g.dtype) = some g.dtype := by
      cases dtype with
      | none => rfl
      | some x => simp [falsyArg] at h; simp [pyOr, h]
    simp only [array, h1]
    by_cases hd : g.dtype = "" <;> simp [pyOr, hd]
  · intro h
    have h1 : pyOr (fun v => v ≠ 0) yorigin (some g.yorigin) = some g.yorigin := by
      cases yorigin with
      | none => rfl
      | some x => simp [falsyArg] at h; simp [pyOr, h]
    simp only [array, h1]
    by_cases hd : g.yorigin = 0 <;> simp [pyOr, hd]
  · intro h
    have h1 : pyOr (fun v => v ≠ 0) xorigin (some g.xorigin) = some g.xorigin := by
      cases xorigin with
      | none => rfl
      | some x => simp [falsyArg] at h; simp [pyOr, h]
    simp only [array, h1]
    by_cases hd : g.xorigin = 0 <;> simp [pyOr, hd]
  · intro h
    have h1 : pyOr (fun _ : Origin => true) origin (some g.origin) = some g.origin := by
      cases origin with
      | none => rfl
      | some x => simp [falsyArg] at h
    simp only [array, h1]
    simp [pyOr]
  · intro h
    have h1 : pyOr (fun v => v ≠ 0) fill_value g.fill_value = g.fill_value := by
      cases fill_value with
      | none => rfl
      | some x => simp [falsyArg] at h; simp [pyOr, h]
    simp only [array, h1]
  · intro h
    have h1 : pyOr CellArg.truthy cellsize (some (.pair g.cellsize)) =
        some (.pair g.cellsize) := by
      cases cellsize with
      | none => rfl
      | some x => simp [falsyArg] at h; simp [pyOr, h]
    simp only [array, h1]
    simp [pyOr, CellArg.truthy, CellArg.toPair]
  · intro h
    have h1 : pyOr (fun l => !l.isEmpty) proj g.proj = g.proj := by
      cases proj with
      | none => rfl
      | some x => simp [falsyArg] at h; simp [pyOr, h]
    simp only [array, h1]
  · intro h
    have h1 : pyOr (fun s => s ≠ "") mode g.mode = g.mode := by
      cases mode with
      | none => rfl
      | some x => simp [falsyArg] at h; simp [pyOr, h]
    simp only [array, h1]

/-- Witness for claim C9: `array(g, yorigin=0)` keeps `g.yorigin = 5`
rather than 0. -/
theorem array_falsy_kwargs_replaced_witness :
    (array (PyGeoArray.mk "float64" 5 0 .ul none (1, 1) none none)
        none (some 0) none none none none none none).yorigin =
      (PyGeoArray.mk "float64" 5 0 .ul none (1, 1) none none).yorigin :=
  (array_falsy_kwargs_replaced (PyGeoArray.mk "float64" 5 0 .ul none (1, 1) none none)
    none (some 0) none none none none none none).2.1 (by rfl)

end Geoarray
